import Mathlib

/-!
Shallow embedding of the reesolve DNS resolution pipeline
(src/data.rs and src/resolver.rs) together with theorems about the
behaviour of its classifier, batching store writer, results store and
serializers.

Modelling conventions:
* Machine integers that never overflow in the program (record counts,
  queue sizes, TTL values) are modelled as `Nat`.
* `IpAddr` values are only ever compared and rendered textually by the
  program, so they are modelled by their textual form (a `String`).
* A Rust panic (for example `Option::unwrap` on `None`) is modelled by
  propagating `none` through `Option`.
* The shared `HashMap<String, ResolveResponse>` behind the mutex is
  modelled as an association list that keeps at most one binding per
  key; `HashMap::insert` (reached through `extend`) replaces the old
  binding for the key, which the model realises by filtering the old
  binding out before consing the new one.
-/

namespace Reesolve

/-- The textual form of a `std::net::IpAddr`.  The program only ever
calls `to_string` on addresses and serializes them, so the textual
form is a faithful model. -/
abbrev IpAddr := String

/-- The record types `rr::record_type::RecordType` distinguished by the
classifier in `From<&rr::resource::Record> for ResolveResponse`
(src/data.rs): `A`, `AAAA`, `CNAME`, and a catch-all for every other
type. -/
inductive RecordType
  | A
  | AAAA
  | CNAME
  | otherType (s : String)
deriving DecidableEq

/-- `RecordType::to_string` as used by the classifier. -/
def RecordType.toText : RecordType → String
  | .A => "A"
  | .AAAA => "AAAA"
  | .CNAME => "CNAME"
  | .otherType s => s

/-- The rdata payload of a resource record, as observed through the two
accessors the program uses: `RData::to_ip_addr` and `RData::as_cname`.
`nullData` stands for a record whose payload is not an address and not
a CNAME target (for example an empty/NULL rdata), which is how an
address answer whose address fails to parse presents itself. -/
inductive RData
  | a (ip : IpAddr)
  | aaaa (ip : IpAddr)
  | cname (target : String)
  | nullData
  | otherData (s : String)
deriving DecidableEq

/-- `RData::to_ip_addr`: the parsed address, when the payload is one. -/
def RData.toIpAddr : RData → Option IpAddr
  | .a ip => some ip
  | .aaaa ip => some ip
  | _ => none

/-- `RData::as_cname`: the alias target, when the record is a CNAME. -/
def RData.asCname : RData → Option String
  | .cname t => some t
  | _ => none

/-- A raw answer record `rr::resource::Record` as observed by the
classifier: owner name (`record.name().to_utf8()`), record type
(`record.record_type()`), ttl (`record.ttl()`) and rdata
(`record.rdata()`). -/
structure RawRecord where
  name : String
  rrType : RecordType
  ttl : Nat
  rdata : RData
deriving DecidableEq

/-- The `ResolveResponse` enum of src/data.rs, with the same three
variants and the same fields. -/
inductive ResolveResponse
  | record (query name kind : String) (ttl : Nat) (is_wildcard : Bool)
  | ipRecord (query name : String) (value : Option IpAddr) (kind : String) (ttl : Nat)
      (is_wildcard : Bool)
  | error (query response_code : String)
deriving DecidableEq

/-- `impl From<&rr::resource::Record> for ResolveResponse`
(src/data.rs lines 181-214).  For `CNAME` the source calls
`record.rdata().as_cname().unwrap()`, which panics when the rdata is
not a CNAME; the panic is the `none` result. -/
def fromRecord (record : RawRecord) : Option ResolveResponse :=
  let name := record.name
  let kind := record.rrType
  let ttl := record.ttl
  let is_wildcard := false
  match kind with
  | .A => some (.ipRecord "" name record.rdata.toIpAddr kind.toText ttl is_wildcard)
  | .AAAA => some (.ipRecord "" name record.rdata.toIpAddr kind.toText ttl is_wildcard)
  | .CNAME =>
    (record.rdata.asCname).map fun t => .record "" t kind.toText ttl is_wildcard
  | _ => some (.record "" name kind.toText ttl is_wildcard)

/-- `ResolveResponse::new` (src/data.rs lines 112-124): converts the raw
record and then overwrites the `query` field of a `Record` or
`IpRecord` with the query that triggered the lookup. -/
def ResolveResponse.new (record : RawRecord) (q : String) : Option ResolveResponse :=
  (fromRecord record).map fun r =>
    match r with
    | .record _ name kind ttl w => .record q name kind ttl w
    | .ipRecord _ name value kind ttl w => .ipRecord q name value kind ttl w
    | r => r

/-- `ResolveResponse::key` (src/data.rs lines 128-134).  For an
`IpRecord` the source evaluates `value.unwrap().to_string()`: the
`unwrap` panics when the value is absent, which is the `none` result
here (the address is already textual in this model, so `to_string` is
the identity). -/
def ResolveResponse.key : ResolveResponse → Option String
  | .ipRecord _ _ value _ _ _ => value
  | .record _ name _ _ _ => some name
  | .error query _ => some query

/-- The field the serializer calls `is_wildcard`; an `Error` record has
no such field and the source treats it as never wildcard. -/
def ResolveResponse.wildcardFlag : ResolveResponse → Bool
  | .record _ _ _ _ w => w
  | .ipRecord _ _ _ _ _ w => w
  | .error _ _ => false

/-- The query field of a response. -/
def ResolveResponse.queryField : ResolveResponse → String
  | .record q _ _ _ _ => q
  | .ipRecord q _ _ _ _ _ => q
  | .error q _ => q

/-- The kinds of `trust_dns_proto::error::ProtoErrorKind` distinguished
by `ResolveResponse::from_error`: `Msg`, `Message`, and a catch-all
for every other proto error kind (the `_ => None` arm). -/
inductive ProtoErrorKind
  | msg (s : String)
  | message (s : String)
  | otherKind (s : String)
deriving DecidableEq

/-- The kinds of `trust_dns_resolver::error::ResolveErrorKind` matched
by `ResolveResponse::from_error`: `Message`, `Msg`, `NoRecordsFound`
(observed through `query.name().to_string()` and
`response_code.to_string()`), `Proto`, `Io` and `Timeout`. -/
inductive ResolveErrorKind
  | message (m : String)
  | msg (m : String)
  | noRecordsFound (queryName : String) (responseCode : String)
  | proto (k : ProtoErrorKind)
  | io
  | timeout
deriving DecidableEq

/-- `ResolveResponse::from_error` (src/data.rs lines 137-176). -/
def ResolveResponse.fromError : ResolveErrorKind → Option ResolveResponse
  | .message m => some (.error "" m)
  | .msg m => some (.error "" m)
  | .noRecordsFound q rc => some (.error q rc)
  | .proto (.msg s) => some (.error "" s)
  | .proto (.message s) => some (.error "" s)
  | .proto (.otherKind _) => none
  | .io => none
  | .timeout => none

/-- The map held by `ResultsCache` (src/data.rs): at most one binding
per key, modelled as an association list. -/
abbrev Store := List (String × ResolveResponse)

/-- One `HashMap::insert`: the new binding replaces any old binding for
the same key. -/
def storeInsert (s : Store) (k : String) (r : ResolveResponse) : Store :=
  (k, r) :: s.filter fun p => p.1 != k

/-- The key `k` has a binding in the store. -/
def storeHasKey (s : Store) (k : String) : Prop :=
  k ∈ s.map Prod.fst

instance (s : Store) (k : String) : Decidable (storeHasKey s k) := by
  unfold storeHasKey; infer_instance

/-- `HashMap::get` on the model. -/
def lookupStore (s : Store) (k : String) : Option ResolveResponse :=
  (s.find? fun p => p.1 == k).map Prod.snd

/-- The number of bindings the store holds for the key `k`. -/
def countKey (s : Store) (k : String) : Nat :=
  (s.filter fun p => p.1 == k).length

/-- `ResultsCache::insert` (src/data.rs lines 37-42): drains the queue
in order and extends the map with `(r.key(), r)` for each record.  A
record whose key computation panics aborts the whole insertion
(`none`). -/
def insertRecords (s : Store) : List ResolveResponse → Option Store
  | [] => some s
  | r :: rs =>
    match r.key with
    | some k => insertRecords (storeInsert s k r) rs
    | none => none

/-- The loop state of `Resolver::cache_responses`: the cache written so
far, the pending queue, and the running count of records appended to
the queue since the last flush. -/
structure BatchState where
  store : Store
  queue : List ResolveResponse
  queueCount : Nat
deriving DecidableEq

/-- One iteration of the receive loop of `Resolver::cache_responses`
(src/resolver.rs lines 156-168): append the received batch to the
queue, add its length to the running count, and flush the whole queue
into the cache exactly when the running count equals the queue size. -/
def cacheStep (queueSize : Nat) (st : BatchState) (records : List ResolveResponse) :
    Option BatchState :=
  let queueCount := st.queueCount + records.length
  let queue := st.queue ++ records
  if queueCount == queueSize then
    (insertRecords st.store queue).map fun s => ⟨s, [], 0⟩
  else
    some ⟨st.store, queue, queueCount⟩

/-- The `while let Some(records) = receiver.recv().await` loop of
`Resolver::cache_responses`, over the list of batches the channel
delivers. -/
def cacheLoop (queueSize : Nat) (st : BatchState) :
    List (List ResolveResponse) → Option BatchState
  | [] => some st
  | b :: bs =>
    match cacheStep queueSize st b with
    | some st2 => cacheLoop queueSize st2 bs
    | none => none

/-- The final step of `Resolver::cache_responses` (src/resolver.rs
lines 170-175): when the channel has ended, flush the remaining queue
into the cache when it is not empty. -/
def finalFlush (st : BatchState) : Option Store :=
  if st.queue.isEmpty then some st.store else insertRecords st.store st.queue

/-- `Resolver::cache_responses` (src/resolver.rs lines 138-176): cap
the queue size at the total number of lookups, run the receive loop
from the empty state, and finally flush any non-empty remaining
queue. -/
def cacheResponses (batches : List (List ResolveResponse)) (queueSize total : Nat) :
    Option Store :=
  (cacheLoop (if queueSize > total then total else queueSize) ⟨[], [], 0⟩ batches).bind
    finalFlush

/-- The outcome of one lookup as received by
`Resolver::deliver_response`: either a successful `LookupIp` observed
through its query name (`r.as_lookup().query().name().to_utf8()`) and
its answer records, or a resolve error. -/
inductive LookupOutcome
  | ok (queryName : String) (records : List RawRecord)
  | err (e : ResolveErrorKind)
deriving DecidableEq

/-- `Resolver::deliver_response` (src/resolver.rs lines 104-134): on
success, convert every answer record with `ResolveResponse::new`
(query taken from the original lookup) and send them as one batch; on
failure, send a single-element batch when `from_error` classifies the
failure, and nothing at all when it drops the failure.  The result is
the list of batches sent down the second channel. -/
def deliverResponse : LookupOutcome → Option (List (List ResolveResponse))
  | .ok q rs => (rs.mapM fun r => ResolveResponse.new r q).map fun l => [l]
  | .err e =>
    match ResolveResponse.fromError e with
    | some er => some [[er]]
    | none => some []

/-- The record pipeline of `Resolver::resolve` (src/resolver.rs lines
217-265) after the fan-out stage: every lookup outcome passes through
`deliver_response`, and the resulting batches are drained by
`cache_responses` with `queue_size = 256` and the given total number
of lookups (`hosts.len() * nameservers.len()`). -/
def runPipeline (outcomes : List LookupOutcome) (total : Nat) : Option Store :=
  match outcomes.mapM deliverResponse with
  | none => none
  | some bs => cacheResponses bs.flatten 256 total

/-- A JSON string literal (the serialized values contain no characters
that would require escaping). -/
def jstr (s : String) : String := "\"" ++ s ++ "\""

/-- The serde field list of a `ResolveResponse`, in declaration order,
with the serialize renames `kind` to `type` and `value` to `ip`
applied, each value rendered as a JSON literal.  An absent address
serializes as `null`. -/
def jsonFields : ResolveResponse → List (String × String)
  | .record q n k t w =>
    [("query", jstr q), ("name", jstr n), ("type", jstr k), ("ttl", toString t),
      ("is_wildcard", if w then "true" else "false")]
  | .ipRecord q n v k t w =>
    [("query", jstr q), ("name", jstr n),
      ("ip", match v with | some ip => jstr ip | none => "null"),
      ("type", jstr k), ("ttl", toString t),
      ("is_wildcard", if w then "true" else "false")]
  | .error q rc => [("query", jstr q), ("response_code", jstr rc)]

/-- One record as a pretty-printed JSON object at array depth, in the
format of `serde_json::to_vec_pretty` (two-space indent, key and value
separated by a colon and a space). -/
def jsonObjPretty (r : ResolveResponse) : String :=
  "  \x7b\n"
    ++ String.intercalate ",\n" ((jsonFields r).map fun f => "    " ++ jstr f.1 ++ ": " ++ f.2)
    ++ "\n  \x7d"

/-- `ResultsCache::json` (src/data.rs lines 69-73):
`serde_json::to_vec_pretty` of the list of stored values.  An empty
list renders as `[]`; a non-empty list as a pretty-printed array. -/
def jsonPretty (rs : List ResolveResponse) : String :=
  match rs with
  | [] => "[]"
  | _ => "[\n" ++ String.intercalate ",\n" (rs.map jsonObjPretty) ++ "\n]"

/-- The values stored in the cache, in iteration order of the model. -/
def storeValues (s : Store) : List ResolveResponse := s.map Prod.snd

/-- The csv field list of a `ResolveResponse`: header names with the
serialize renames applied, and the plain cell text of each value.  An
absent address is an empty cell. -/
def csvFields : ResolveResponse → List (String × String)
  | .record q n k t w =>
    [("query", q), ("name", n), ("type", k), ("ttl", toString t),
      ("is_wildcard", if w then "true" else "false")]
  | .ipRecord q n v k t w =>
    [("query", q), ("name", n), ("ip", v.getD ""), ("type", k), ("ttl", toString t),
      ("is_wildcard", if w then "true" else "false")]
  | .error q rc => [("query", q), ("response_code", rc)]

/-- `ResultsCache::csv` (src/data.rs lines 76-81) through the contract
of `csv::Writer`: the writer emits a header row derived from the first
serialized record, then one row per record; when no record is ever
serialized the output stays completely empty. -/
def csvBytes (rs : List ResolveResponse) : String :=
  match rs with
  | [] => ""
  | r :: _ =>
    String.intercalate "," ((csvFields r).map Prod.fst) ++ "\n"
      ++ String.join (rs.map fun x => String.intercalate "," ((csvFields x).map Prod.snd) ++ "\n")

/-! ### Store lemmas -/

theorem countKey_storeInsert_self (s : Store) (k : String) (r : ResolveResponse) :
    countKey (storeInsert s k r) k = 1 := by
  have hfil : ∀ t : Store, ((t.filter fun p => p.1 != k).filter fun p => p.1 == k) = [] := by
    intro t
    induction t with
    | nil => rfl
    | cons p tl ih =>
      by_cases h : p.1 = k
      · simp [List.filter_cons, h, ih]
      · simp [List.filter_cons, h, ih]
  simp [countKey, storeInsert, List.filter_cons, hfil s]

theorem storeHasKey_storeInsert_self (s : Store) (k : String) (r : ResolveResponse) :
    storeHasKey (storeInsert s k r) k := by
  simp [storeHasKey, storeInsert]

theorem storeHasKey_storeInsert_mono (s : Store) (k k2 : String) (r : ResolveResponse)
    (h : storeHasKey s k) : storeHasKey (storeInsert s k2 r) k := by
  by_cases hk : k = k2
  · subst hk; exact storeHasKey_storeInsert_self s k r
  · simp only [storeHasKey, storeInsert, List.map_cons, List.mem_cons, List.mem_map,
      List.mem_filter] at h ⊢
    rcases h with ⟨p, hp, hpk⟩
    exact Or.inr ⟨p, ⟨hp, by simp [hpk, hk]⟩, hpk⟩

theorem insertRecords_isSome (s : Store) (rs : List ResolveResponse)
    (h : ∀ r ∈ rs, (ResolveResponse.key r).isSome) :
    ∃ s2, insertRecords s rs = some s2 := by
  induction rs generalizing s with
  | nil => exact ⟨s, rfl⟩
  | cons r tl ih =>
    have hr := h r (by simp)
    cases hk : r.key with
    | none => rw [hk] at hr; simp at hr
    | some k =>
      obtain ⟨s2, hs2⟩ := ih (storeInsert s k r) (fun x hx => h x (by simp [hx]))
      exact ⟨s2, by simpa [insertRecords, hk] using hs2⟩

theorem storeHasKey_insertRecords_mono (rs : List ResolveResponse) (s s2 : Store) (k : String)
    (h : insertRecords s rs = some s2) (hk : storeHasKey s k) : storeHasKey s2 k := by
  induction rs generalizing s with
  | nil =>
    simp only [insertRecords, Option.some.injEq] at h
    exact h ▸ hk
  | cons r tl ih =>
    cases hkey : r.key with
    | none => simp [insertRecords, hkey] at h
    | some k2 =>
      simp only [insertRecords, hkey] at h
      exact ih (storeInsert s k2 r) h (storeHasKey_storeInsert_mono s k k2 r hk)

theorem storeHasKey_insertRecords_of_mem (rs : List ResolveResponse) :
    ∀ (s s2 : Store) (r : ResolveResponse) (k : String),
      insertRecords s rs = some s2 → r ∈ rs → r.key = some k → storeHasKey s2 k := by
  induction rs with
  | nil =>
    intro s s2 r k h hmem hk
    simp at hmem
  | cons x tl ih =>
    intro s s2 r k h hmem hk
    cases hxkey : x.key with
    | none => simp [insertRecords, hxkey] at h
    | some k2 =>
      simp only [insertRecords, hxkey] at h
      rcases List.mem_cons.mp hmem with hx | hx
      · subst hx
        rw [hk] at hxkey
        injection hxkey with hkk
        subst hkk
        exact storeHasKey_insertRecords_mono tl _ _ _ h (storeHasKey_storeInsert_self s k r)
      · exact ih _ _ _ _ h hx hk

theorem insertRecords_append (s : Store) (xs ys : List ResolveResponse) :
    insertRecords s (xs ++ ys) = (insertRecords s xs).bind fun s2 => insertRecords s2 ys := by
  induction xs generalizing s with
  | nil => simp [insertRecords]
  | cons x tl ih =>
    cases hx : x.key with
    | none => simp [insertRecords, hx]
    | some k => simp [insertRecords, hx, ih]

/-! ### The batcher flushes exactly the records it received -/

theorem finalFlush_eq_insertRecords (st : BatchState) :
    finalFlush st = insertRecords st.store st.queue := by
  unfold finalFlush
  by_cases h : st.queue.isEmpty
  · rw [if_pos h, List.isEmpty_iff.mp h]
    rfl
  · rw [if_neg h]

theorem cacheStep_eq_of_full {qs : Nat} {st : BatchState} {b : List ResolveResponse}
    (h : st.queueCount + b.length = qs) :
    cacheStep qs st b
      = (insertRecords st.store (st.queue ++ b)).map fun s => ⟨s, [], 0⟩ := by
  simp [cacheStep, h]

theorem cacheStep_eq_of_not_full {qs : Nat} {st : BatchState} {b : List ResolveResponse}
    (h : ¬ st.queueCount + b.length = qs) :
    cacheStep qs st b
      = some ⟨st.store, st.queue ++ b, st.queueCount + b.length⟩ := by
  simp [cacheStep, h]

theorem cacheLoop_flush_eq (qs : Nat) (batches : List (List ResolveResponse)) :
    ∀ st : BatchState,
      (cacheLoop qs st batches).bind finalFlush
        = insertRecords st.store (st.queue ++ batches.flatten) := by
  induction batches with
  | nil =>
    intro st
    simp only [cacheLoop, Option.some_bind, List.flatten_nil, List.append_nil]
    exact finalFlush_eq_insertRecords st
  | cons b bs ih =>
    intro st
    rw [List.flatten_cons, ← List.append_assoc, insertRecords_append]
    by_cases h : st.queueCount + b.length = qs
    · rw [cacheLoop, cacheStep_eq_of_full h]
      cases hins : insertRecords st.store (st.queue ++ b) with
      | none => rfl
      | some s2 =>
        simp only [Option.map_some', Option.some_bind]
        have := ih ⟨s2, [], 0⟩
        simp only [List.nil_append] at this
        exact this
    · rw [cacheLoop, cacheStep_eq_of_not_full h]
      have := ih ⟨st.store, st.queue ++ b, st.queueCount + b.length⟩
      simp only at this
      rw [this, insertRecords_append]

theorem cacheResponses_eq_insert_flatten (batches : List (List ResolveResponse))
    (queueSize total : Nat) :
    cacheResponses batches queueSize total = insertRecords [] batches.flatten := by
  have h := cacheLoop_flush_eq (if queueSize > total then total else queueSize) batches ⟨[], [], 0⟩
  simp only [List.nil_append] at h
  exact h

/-! ### Claims -/

/-- C4: `ResultsCache::insert` is last-write-wins: inserting two
records that derive the same key, in order, leaves exactly one entry
under that key in the store, and it holds the later record. -/
theorem results_cache_insert_last_write_wins (s : Store) (r1 r2 : ResolveResponse)
    (k : String) (h1 : r1.key = some k) (h2 : r2.key = some k) :
    insertRecords s [r1, r2] = some (storeInsert (storeInsert s k r1) k r2)
      ∧ countKey (storeInsert (storeInsert s k r1) k r2) k = 1
      ∧ lookupStore (storeInsert (storeInsert s k r1) k r2) k = some r2 := by
  refine ⟨by simp [insertRecords, h1, h2], countKey_storeInsert_self _ k r2, ?_⟩
  simp [lookupStore, storeInsert]

/-- Witness for C4: two address answers carrying the same address
(as delivered by two different nameservers, with different ttl) end up
as one stored entry holding the later answer. -/
theorem results_cache_insert_last_write_wins_witness :
    (ResolveResponse.ipRecord "example.com." "example.com." (some "9.9.9.9") "A" 60
        false).key = some "9.9.9.9"
      ∧ (ResolveResponse.ipRecord "example.com." "example.com." (some "9.9.9.9") "A" 300
          false).key = some "9.9.9.9"
      ∧ (insertRecords []
            [ResolveResponse.ipRecord "example.com." "example.com." (some "9.9.9.9") "A" 60 false,
              ResolveResponse.ipRecord "example.com." "example.com." (some "9.9.9.9") "A" 300 false]
          = some (storeInsert
              (storeInsert [] "9.9.9.9"
                (ResolveResponse.ipRecord "example.com." "example.com." (some "9.9.9.9") "A" 60 false))
              "9.9.9.9"
              (ResolveResponse.ipRecord "example.com." "example.com." (some "9.9.9.9") "A" 300 false))
          ∧ countKey (storeInsert
              (storeInsert [] "9.9.9.9"
                (ResolveResponse.ipRecord "example.com." "example.com." (some "9.9.9.9") "A" 60 false))
              "9.9.9.9"
              (ResolveResponse.ipRecord "example.com." "example.com." (some "9.9.9.9") "A" 300 false))
              "9.9.9.9" = 1
          ∧ lookupStore (storeInsert
              (storeInsert [] "9.9.9.9"
                (ResolveResponse.ipRecord "example.com." "example.com." (some "9.9.9.9") "A" 60 false))
              "9.9.9.9"
              (ResolveResponse.ipRecord "example.com." "example.com." (some "9.9.9.9") "A" 300 false))
              "9.9.9.9"
            = some (ResolveResponse.ipRecord "example.com." "example.com." (some "9.9.9.9") "A" 300
                false)) :=
  ⟨rfl, rfl,
    results_cache_insert_last_write_wins []
      (ResolveResponse.ipRecord "example.com." "example.com." (some "9.9.9.9") "A" 60 false)
      (ResolveResponse.ipRecord "example.com." "example.com." (some "9.9.9.9") "A" 300 false)
      "9.9.9.9" rfl rfl⟩

/-- C8: when the record channel ends, any remaining pending queue is
flushed unconditionally, so every record the batcher received has its
key present in the final store, regardless of batch sizing relative to
the flush threshold. -/
theorem cache_responses_no_record_lost (batches : List (List ResolveResponse))
    (queueSize total : Nat)
    (h : ∀ r ∈ batches.flatten, (ResolveResponse.key r).isSome) :
    ∃ s, cacheResponses batches queueSize total = some s
      ∧ ∀ r ∈ batches.flatten, ∀ k, r.key = some k → storeHasKey s k := by
  obtain ⟨s, hs⟩ := insertRecords_isSome [] batches.flatten h
  refine ⟨s, by rw [cacheResponses_eq_insert_flatten]; exact hs, ?_⟩
  intro r hr k hk
  exact storeHasKey_insertRecords_of_mem batches.flatten [] s r k hs hr hk

/-- Witness for C8: two batches of total size three against a flush
threshold of two; the running count jumps from one to three, the
equality flush never fires, and the final flush still lands every
record in the store. -/
theorem cache_responses_no_record_lost_witness :
    (∀ r ∈ ([[ResolveResponse.ipRecord "a." "a." (some "10.0.0.1") "A" 60 false],
          [ResolveResponse.ipRecord "b." "b." (some "10.0.0.2") "A" 60 false,
            ResolveResponse.error "c." "NXDomain"]] :
            List (List ResolveResponse)).flatten,
        (ResolveResponse.key r).isSome)
      ∧ ∃ s,
          cacheResponses
              [[ResolveResponse.ipRecord "a." "a." (some "10.0.0.1") "A" 60 false],
                [ResolveResponse.ipRecord "b." "b." (some "10.0.0.2") "A" 60 false,
                  ResolveResponse.error "c." "NXDomain"]] 2 9
            = some s
          ∧ ∀ r ∈ ([[ResolveResponse.ipRecord "a." "a." (some "10.0.0.1") "A" 60 false],
                [ResolveResponse.ipRecord "b." "b." (some "10.0.0.2") "A" 60 false,
                  ResolveResponse.error "c." "NXDomain"]] :
                List (List ResolveResponse)).flatten,
              ∀ k, r.key = some k → storeHasKey s k :=
  ⟨by decide,
    cache_responses_no_record_lost
      [[ResolveResponse.ipRecord "a." "a." (some "10.0.0.1") "A" 60 false],
        [ResolveResponse.ipRecord "b." "b." (some "10.0.0.2") "A" 60 false,
          ResolveResponse.error "c." "NXDomain"]] 2 9 (by decide)⟩

/-- Records used to exhibit the missed flush of C1. -/
def c1r1 : ResolveResponse :=
  .ipRecord "a.example.com." "a.example.com." (some "10.0.0.1") "A" 60 false

def c1r2 : ResolveResponse :=
  .ipRecord "a.example.com." "a.example.com." (some "10.0.0.2") "A" 60 false

def c1r3 : ResolveResponse := .error "b.example.com." "NXDomain"

/-- C1: with one target and two nameservers the flush threshold is
`min(256, 2) = 2`; a single batch of three records takes the running
count from 0 to 3, which reaches and exceeds the threshold, yet the
loop body leaves the store untouched, keeps all three records in the
pending queue and does not reset the running count, because the source
compares with `queue_count == queue_size` (strict equality) instead of
a reached-or-exceeded test. -/
theorem cache_step_misses_flush_at_reached_threshold :
    (if (256 : Nat) > 2 then 2 else 256) = 2
      ∧ cacheStep 2 ⟨[], [], 0⟩ [c1r1, c1r2, c1r3] = some ⟨[], [c1r1, c1r2, c1r3], 3⟩
      ∧ 2 ≤ 3 := by decide

/-- The raw record and classified record of C2: an A answer whose
rdata does not parse as an address. -/
def c2raw : RawRecord := ⟨"bad.example.com.", .A, 300, .nullData⟩

def c2rec : ResolveResponse := .ipRecord "bad.example.com." "bad.example.com." none "A" 300 false

/-- C2: the classifier does record an A answer with an unparseable
address as an `IpRecord` whose value is absent, but deriving the store
key of that record evaluates `value.unwrap()` on an absent value and
panics, so inserting it aborts instead of never failing. -/
theorem unparsed_address_key_derivation_panics :
    ResolveResponse.new c2raw "bad.example.com." = some c2rec
      ∧ c2rec.key = none
      ∧ insertRecords [] [c2rec] = none := by decide

/-- C3 counterexample: a protocol-level failure that is neither a
message kind (`ProtoErrorKind::Msg`/`Message`) is dropped silently by
`from_error`, although it is not a bare I/O or timeout failure; and a
generic message failure is recorded with an empty query field rather
than being keyed by the query name. -/
theorem proto_error_dropped_and_message_error_has_empty_query :
    ResolveResponse.fromError (.proto (.otherKind "busy poisoned lock")) = none
      ∧ ResolveResponse.fromError (.message "oops") = some (.error "" "oops")
      ∧ (ResolveResponse.error "" "oops").queryField = "" := by decide

/-- C3 amended: per classified failure, `deliver_response` drops bare
I/O failures, timeouts and non-message protocol failures silently (no
batch is sent and the run continues), and sends exactly one
`ErrorRecord` for each remaining kind, carrying the response-code
string; only a `NoRecordsFound` failure is keyed by the query name,
the message kinds are keyed by the empty string. -/
theorem error_delivery_classification :
    deliverResponse (.err .io) = some []
      ∧ deliverResponse (.err .timeout) = some []
      ∧ (∀ s, deliverResponse (.err (.proto (.otherKind s))) = some [])
      ∧ (∀ m, deliverResponse (.err (.message m)) = some [[.error "" m]])
      ∧ (∀ m, deliverResponse (.err (.msg m)) = some [[.error "" m]])
      ∧ (∀ s, deliverResponse (.err (.proto (.msg s))) = some [[.error "" s]])
      ∧ (∀ s, deliverResponse (.err (.proto (.message s))) = some [[.error "" s]])
      ∧ (∀ q rc, deliverResponse (.err (.noRecordsFound q rc)) = some [[.error q rc]]) :=
  ⟨rfl, rfl, fun _ => rfl, fun _ => rfl, fun _ => rfl, fun _ => rfl, fun _ => rfl,
    fun _ _ => rfl⟩

/-- The raw record of C5: an answer whose owner name is a wildcard
name, indicating the matched name used wildcard expansion. -/
def c5raw : RawRecord := ⟨"*.example.com.", .A, 300, .a "10.1.2.3"⟩

/-- C5 counterexample: an answer whose owner name indicates a wildcard
match is still classified with the wildcard flag false. -/
theorem wildcard_answer_classified_with_flag_false :
    ResolveResponse.new c5raw "host.example.com."
      = some (.ipRecord "host.example.com." "*.example.com." (some "10.1.2.3") "A" 300 false)
      ∧ (ResolveResponse.ipRecord "host.example.com." "*.example.com." (some "10.1.2.3") "A"
            300 false).wildcardFlag = false := by decide

/-- C5 amended: every record the classifier produces carries the
wildcard flag false; nothing in the pipeline ever sets it to true (the
`ResultsCache::set_wildcard` operation that could is never called). -/
theorem classifier_wildcard_always_false (record : RawRecord) (q : String)
    (r : ResolveResponse) (h : ResolveResponse.new record q = some r) :
    r.wildcardFlag = false := by
  rcases record with ⟨name, rrType, ttl, rdata⟩
  cases rrType with
  | A =>
    simp only [ResolveResponse.new, fromRecord, Option.map_some'] at h
    cases h
    rfl
  | AAAA =>
    simp only [ResolveResponse.new, fromRecord, Option.map_some'] at h
    cases h
    rfl
  | CNAME =>
    cases rdata with
    | cname t =>
      simp only [ResolveResponse.new, fromRecord, RData.asCname, Option.map_some'] at h
      cases h
      rfl
    | a ip => simp [ResolveResponse.new, fromRecord, RData.asCname] at h
    | aaaa ip => simp [ResolveResponse.new, fromRecord, RData.asCname] at h
    | nullData => simp [ResolveResponse.new, fromRecord, RData.asCname] at h
    | otherData s => simp [ResolveResponse.new, fromRecord, RData.asCname] at h
  | otherType s =>
    simp only [ResolveResponse.new, fromRecord, Option.map_some'] at h
    cases h
    rfl

/-- Witness for C5: the amended claim evaluated on a concrete A
answer. -/
theorem classifier_wildcard_always_false_witness :
    ResolveResponse.new ⟨"w.example.com.", .A, 60, .a "10.0.0.9"⟩ "w.example.com."
        = some (.ipRecord "w.example.com." "w.example.com." (some "10.0.0.9") "A" 60 false)
      ∧ (ResolveResponse.ipRecord "w.example.com." "w.example.com." (some "10.0.0.9") "A" 60
            false).wildcardFlag = false :=
  ⟨rfl,
    classifier_wildcard_always_false ⟨"w.example.com.", .A, 60, .a "10.0.0.9"⟩
      "w.example.com."
      (.ipRecord "w.example.com." "w.example.com." (some "10.0.0.9") "A" 60 false) rfl⟩

/-- C6: for every CNAME answer, `ResolveResponse::new` stores the
originating query as the `query` field and the alias target only as
the `name` field: the stored query is the hostname that triggered the
lookup, not the resolved alias target. -/
theorem cname_record_query_is_original_host (name target : String) (ttl : Nat) (q : String) :
    ResolveResponse.new ⟨name, .CNAME, ttl, .cname target⟩ q
      = some (.record q target "CNAME" ttl false) := rfl

/-- The raw answer record of the C7 scenario: one A record for
`example.com` with address 93.184.216.34 and ttl 300. -/
def c7raw : RawRecord := ⟨"example.com.", .A, 300, .a "93.184.216.34"⟩

/-- The classified record of the C7 scenario. -/
def c7rec : ResolveResponse :=
  .ipRecord "example.com." "example.com." (some "93.184.216.34") "A" 300 false

/-- C7 counterexample: the scenario store does end with exactly one
entry keyed by the address, but the serialized JSON is not the claimed
compact byte string: the serializer emits the `query` field as well
and pretty-prints the array. -/
theorem scenario_json_differs_from_claimed_bytes :
    runPipeline [.ok "example.com." [c7raw]] 1 = some [("93.184.216.34", c7rec)]
      ∧ jsonPretty (storeValues [("93.184.216.34", c7rec)])
          ≠ "[\x7b\"name\":\"example.com\",\"ip\":\"93.184.216.34\",\"type\":\"A\",\"ttl\":300,\"is_wildcard\":false\x7d]" := by
  decide

/-- C7 amended: for the scenario of one target, one nameserver and one
A answer 93.184.216.34 with ttl 300, the store ends with exactly one
entry keyed "93.184.216.34", and the JSON output is the pretty-printed
array of the one stored record, including its `query` field. -/
theorem scenario_store_and_pretty_json :
    runPipeline [.ok "example.com." [c7raw]] 1 = some [("93.184.216.34", c7rec)]
      ∧ jsonPretty (storeValues [("93.184.216.34", c7rec)])
          = "[\n  \x7b\n    \"query\": \"example.com.\",\n    \"name\": \"example.com.\",\n    \"ip\": \"93.184.216.34\",\n    \"type\": \"A\",\n    \"ttl\": 300,\n    \"is_wildcard\": false\n  \x7d\n]" :=
  ⟨rfl, rfl⟩

/-- C9 counterexample: an empty target list yields an empty store and
the JSON document `[]`, but the CSV output is completely empty rather
than a header-only document: the csv writer only emits a header upon
serializing a first record (the third conjunct shows the header row a
record would produce, the fourth that the empty output is not that
header-only document). -/
theorem empty_targets_csv_not_header_only :
    runPipeline [] 0 = some []
      ∧ csvBytes (storeValues ([] : Store)) = ""
      ∧ csvBytes [ResolveResponse.ipRecord "q." "n." (some "1.2.3.4") "A" 60 false]
          = "query,name,ip,type,ttl,is_wildcard\nq.,n.,1.2.3.4,A,60,false\n"
      ∧ ("" : String) ≠ "query,name,ip,type,ttl,is_wildcard\n" := by decide

/-- C9 amended: an empty target list yields an empty store, the JSON
output `[]`, and an empty (zero-byte) CSV output with no header
row. -/
theorem empty_targets_empty_store_and_outputs :
    runPipeline [] 0 = some []
      ∧ jsonPretty (storeValues ([] : Store)) = "[]"
      ∧ csvBytes (storeValues ([] : Store)) = "" := by decide

theorem insertRecords_same_key_count (rs : List ResolveResponse) :
    ∀ (s : Store) (k : String), (∀ r ∈ rs, r.key = some k) →
      ∃ s2, insertRecords s rs = some s2 ∧ countKey s2 k ≤ max (countKey s k) 1 := by
  induction rs with
  | nil =>
    intro s k h
    exact ⟨s, rfl, le_max_left _ _⟩
  | cons r tl ih =>
    intro s k h
    have hk := h r (by simp)
    obtain ⟨s2, hs2, hc⟩ := ih (storeInsert s k r) k (fun x hx => h x (by simp [hx]))
    refine ⟨s2, by simp [insertRecords, hk, hs2], ?_⟩
    calc countKey s2 k ≤ max (countKey (storeInsert s k r) k) 1 := hc
      _ = 1 := by rw [countKey_storeInsert_self]; exact max_self 1
      _ ≤ max (countKey s k) 1 := le_max_right _ _

/-- C10: every classified failure of a message kind (generic message
errors and protocol-level message errors) is recorded as an
`ErrorRecord` whose query field is the empty string; since the store
key of an `ErrorRecord` is its query, inserting all such records
leaves at most one stored entry, under the key `""`. -/
theorem message_errors_collapse_to_empty_key (es : List ResolveErrorKind)
    (h : ∀ e ∈ es,
        (∃ m, e = .message m) ∨ (∃ m, e = .msg m)
          ∨ (∃ s, e = .proto (.msg s)) ∨ (∃ s, e = .proto (.message s))) :
    (∀ e ∈ es, ∃ rc, ResolveResponse.fromError e = some (.error "" rc))
      ∧ ∃ s2, insertRecords [] (es.filterMap ResolveResponse.fromError) = some s2
          ∧ countKey s2 "" ≤ 1 := by
  have hall : ∀ e ∈ es, ∃ rc, ResolveResponse.fromError e = some (.error "" rc) := by
    intro e he
    rcases h e he with ⟨m, rfl⟩ | ⟨m, rfl⟩ | ⟨s, rfl⟩ | ⟨s, rfl⟩
    · exact ⟨m, rfl⟩
    · exact ⟨m, rfl⟩
    · exact ⟨s, rfl⟩
    · exact ⟨s, rfl⟩
  refine ⟨hall, ?_⟩
  have hkeys : ∀ r ∈ es.filterMap ResolveResponse.fromError, r.key = some "" := by
    intro r hr
    rcases List.mem_filterMap.mp hr with ⟨e, he, hfe⟩
    obtain ⟨rc, hrc⟩ := hall e he
    rw [hrc] at hfe
    injection hfe with hfe
    rw [← hfe]
    rfl
  obtain ⟨s2, hs2, hc⟩ :=
    insertRecords_same_key_count (es.filterMap ResolveResponse.fromError) [] "" hkeys
  exact ⟨s2, hs2, by simpa [countKey] using hc⟩

/-- Witness for C10: a generic message failure and a protocol message
failure collapse to at most one stored entry under the empty key. -/
theorem message_errors_collapse_to_empty_key_witness :
    (∀ e ∈ ([.message "oops", .proto (.msg "server refused")] : List ResolveErrorKind),
        (∃ m, e = .message m) ∨ (∃ m, e = .msg m)
          ∨ (∃ s, e = .proto (.msg s)) ∨ (∃ s, e = .proto (.message s)))
      ∧ ((∀ e ∈ ([.message "oops", .proto (.msg "server refused")] : List ResolveErrorKind),
            ∃ rc, ResolveResponse.fromError e = some (.error "" rc))
        ∧ ∃ s2,
            insertRecords []
                (([.message "oops", .proto (.msg "server refused")] :
                    List ResolveErrorKind).filterMap ResolveResponse.fromError)
              = some s2
            ∧ countKey s2 "" ≤ 1) := by
  have hyp : ∀ e ∈ ([.message "oops", .proto (.msg "server refused")] :
      List ResolveErrorKind),
      (∃ m, e = .message m) ∨ (∃ m, e = .msg m)
        ∨ (∃ s, e = .proto (.msg s)) ∨ (∃ s, e = .proto (.message s)) := by
    intro e he
    rcases List.mem_cons.mp he with rfl | he2
    · exact Or.inl ⟨"oops", rfl⟩
    rcases List.mem_cons.mp he2 with rfl | he3
    · exact Or.inr (Or.inr (Or.inl ⟨"server refused", rfl⟩))
    · simp at he3
  exact ⟨hyp, message_errors_collapse_to_empty_key _ hyp⟩

end Reesolve
